import Mathlib

/-!
Shallow embedding of the Razirp/ThreadPool worker-pool engine.

The embedding follows the converged generation of the sources
(src/src/thread_pool.cpp and src/src/worker_thread.cpp) for the pool and
worker state machines, and thread_pool::submit from
src/include/thread_pool.hpp (lines 223-255) for the submission path, with
the int8 status encoding of that header (0 terminated, 1 running,
2 paused) read through the five-valued status enum of the converged
sources.  Blocking condition-variable waits are embedded by passing the
state observed when the wait loop exits (a `drain` function constrained by
hypotheses), and each pool operation is a function on an explicit pool
state.  Cross-thread interleavings, joins and real time are outside the
embedding; the claims settled here are about the state transitions,
queue contents and result channels that the sources manipulate.
-/

/-- Pool status, `thread_pool::status_t` of the converged sources:
RUNNING, PAUSED, SHUTDOWN (draining, not accepting), TERMINATING,
TERMINATED. -/
inductive PoolStatus where
  | RUNNING
  | PAUSED
  | SHUTDOWN
  | TERMINATING
  | TERMINATED
deriving DecidableEq

/-- Worker status, `thread_pool::worker_thread::status_t`:
RUNNING, PAUSED, BLOCKED (waiting on the task-queue condition variable),
TERMINATING, TERMINATED. -/
inductive WorkerStatus where
  | RUNNING
  | PAUSED
  | BLOCKED
  | TERMINATING
  | TERMINATED
deriving DecidableEq

/-- `worker_thread::terminate_with_status_lock`
(src/src/worker_thread.cpp lines 180-200): TERMINATED/TERMINATING are left
alone; RUNNING/BLOCKED/PAUSED are set to TERMINATING (a PAUSED worker also
has its pause semaphore released, which the status embedding does not
track). -/
def worker_terminate (w : WorkerStatus) : WorkerStatus :=
  match w with
  | .TERMINATED => .TERMINATED
  | .TERMINATING => .TERMINATING
  | .RUNNING => .TERMINATING
  | .BLOCKED => .TERMINATING
  | .PAUSED => .TERMINATING

/-- `worker_thread::pause_with_status_lock`
(src/src/worker_thread.cpp lines 214-229). -/
def worker_pause (w : WorkerStatus) : WorkerStatus :=
  match w with
  | .TERMINATED => .TERMINATED
  | .TERMINATING => .TERMINATING
  | .PAUSED => .PAUSED
  | .BLOCKED => .PAUSED
  | .RUNNING => .PAUSED

/-- `worker_thread::resume_with_status_lock`
(src/src/worker_thread.cpp lines 241-257). -/
def worker_resume (w : WorkerStatus) : WorkerStatus :=
  match w with
  | .TERMINATED => .TERMINATED
  | .TERMINATING => .TERMINATING
  | .RUNNING => .RUNNING
  | .BLOCKED => .BLOCKED
  | .PAUSED => .RUNNING

/-- A submitted unit of work: the id of its one-shot result channel (the
`std::future` pair created in submit) together with the outcome the user
callable produces when run — a value or a raised failure, both embedded
as naturals. -/
structure PoolTask where
  cid : Nat
  outcome : Except Nat Nat

/-- State of one result channel (the shared state behind the
`std::future` returned by submit). `pending` means not yet satisfied — a
`get()` on it blocks; `broken` is the broken-promise error stored when the
`std::packaged_task` is destroyed unsatisfied. -/
inductive ChanState where
  | pending
  | value (v : Nat)
  | failed (e : Nat)
  | broken
deriving DecidableEq

/-- What `std::future::get()` observes on a channel state. -/
inductive FutureOutcome where
  | blocks
  | value (v : Nat)
  | user_error (e : Nat)
  | broken_promise_error
deriving DecidableEq

/-- `std::future::get()`: blocks while the shared state is not ready, and
otherwise returns the stored value or rethrows the stored exception. -/
def future_get (c : ChanState) : FutureOutcome :=
  match c with
  | .pending => .blocks
  | .value v => .value v
  | .failed e => .user_error e
  | .broken => .broken_promise_error

/-- The pool state visible to the sources: the status word, the
max_task_count bound (0 = unbounded), the FIFO task queue, the
insertion-ordered worker list (each worker abstracted to its status
word), and the result-channel store indexed by channel id. -/
structure PoolState where
  status : PoolStatus
  max_task_count : Nat
  task_queue : List PoolTask
  worker_list : List WorkerStatus
  channels : Nat → ChanState

/-- Condition-variable notification performed by an operation on the
task-queue condition variable: notify_one or notify_all. -/
inductive Wake where
  | one
  | all
deriving DecidableEq

/-- Errors thrown by `thread_pool::submit`
(src/include/thread_pool.hpp lines 227-242): terminated (status 0),
paused (status 2), not running (any other non-running status), and
task-queue full. -/
inductive SubmitError where
  | terminated
  | paused
  | not_running
  | queue_full
deriving DecidableEq

/-- Errors thrown by add_thread/remove_thread in states where the
operation is forbidden (src/src/thread_pool.cpp lines 261-264 and
290-293). -/
inductive AdminError where
  | invalid_state
deriving DecidableEq

/-- `thread_pool::get_thread_count` (src/src/thread_pool.cpp
lines 313-317): size of the worker list. -/
def get_thread_count (s : PoolState) : Nat :=
  s.worker_list.length

/-- `thread_pool::get_task_count` (src/src/thread_pool.cpp
lines 319-323): size of the task queue. -/
def get_task_count (s : PoolState) : Nat :=
  s.task_queue.length

/-- The constructor `thread_pool::thread_pool(initial_thread_count,
max_task_count)` (src/include/thread_pool.hpp lines 162-172,
src/src/thread_pool.cpp lines 24-35): status starts RUNNING, the queue
empty, and initial_thread_count workers are created, each starting
RUNNING; every result channel starts unsatisfied. -/
def mk_pool (initial_thread_count max_task_count : Nat) : PoolState :=
  { status := .RUNNING
    max_task_count := max_task_count
    task_queue := []
    worker_list := List.replicate initial_thread_count .RUNNING
    channels := fun _ => ChanState.pending }

/-- `thread_pool::pause_with_status_lock` (src/src/thread_pool.cpp
lines 49-69): TERMINATED/TERMINATING/PAUSED/SHUTDOWN return with no
action; RUNNING stores PAUSED and pauses every worker. -/
def pause_with_status_lock (s : PoolState) : PoolState :=
  match s.status with
  | .TERMINATED => s
  | .TERMINATING => s
  | .PAUSED => s
  | .SHUTDOWN => s
  | .RUNNING =>
      { s with status := .PAUSED
               worker_list := s.worker_list.map worker_pause }

/-- `thread_pool::resume_with_status_lock` (src/src/thread_pool.cpp
lines 81-101): TERMINATED/TERMINATING/RUNNING return with no action;
PAUSED stores RUNNING and falls through to the SHUTDOWN branch, so in
both the PAUSED and the SHUTDOWN case every worker is resumed (in the
SHUTDOWN case the pool status itself is left SHUTDOWN). -/
def resume_with_status_lock (s : PoolState) : PoolState :=
  match s.status with
  | .TERMINATED => s
  | .TERMINATING => s
  | .RUNNING => s
  | .PAUSED =>
      { s with status := .RUNNING
               worker_list := s.worker_list.map worker_resume }
  | .SHUTDOWN =>
      { s with worker_list := s.worker_list.map worker_resume }

/-- `thread_pool::terminate_with_status_lock` (src/src/thread_pool.cpp
lines 184-207): TERMINATED returns immediately; otherwise the status is
stored TERMINATING (unless already so), every worker is terminated, the
task-queue condition variable is notified, and the status is stored
TERMINATED.  Note that neither the task queue nor any result channel is
touched: queued tasks stay in the queue, their channels unsatisfied. -/
def terminate_with_status_lock (s : PoolState) : PoolState :=
  match s.status with
  | .TERMINATED => s
  | _ =>
      { s with status := .TERMINATED
               worker_list := s.worker_list.map worker_terminate }

/-- `thread_pool::shutdown_now_with_status_lock` (src/src/thread_pool.cpp
lines 215-218): exactly terminate_with_status_lock. -/
def shutdown_now_with_status_lock (s : PoolState) : PoolState :=
  terminate_with_status_lock s

/-- The state of shutdown_with_status_lock (src/src/thread_pool.cpp
lines 112-127) at the moment it starts waiting on the
task-queue-empty condition variable: TERMINATED/TERMINATING/SHUTDOWN have
already returned; PAUSED first runs resume_with_status_lock and falls
through; RUNNING (and the resumed PAUSED) store SHUTDOWN. -/
def shutdown_pre (s : PoolState) : PoolState :=
  match s.status with
  | .TERMINATED => s
  | .TERMINATING => s
  | .SHUTDOWN => s
  | .PAUSED => { resume_with_status_lock s with status := .SHUTDOWN }
  | .RUNNING => { s with status := .SHUTDOWN }

/-- `thread_pool::shutdown_with_status_lock` (src/src/thread_pool.cpp
lines 112-134): in TERMINATED/TERMINATING/SHUTDOWN, return with no
action; otherwise move to shutdown_pre, block on task_queue_empty_cv
until the queue is empty — the workers draining the queue meanwhile are
embedded as the `drain` function, constrained in the theorems to
preserve the status word (the status lock is held throughout) and to
return only with an empty queue — and finally call
terminate_with_status_lock. -/
def shutdown_with_status_lock (s : PoolState) (drain : PoolState → PoolState) :
    PoolState :=
  match s.status with
  | .TERMINATED => s
  | .TERMINATING => s
  | .SHUTDOWN => s
  | _ => terminate_with_status_lock (drain (shutdown_pre s))

/-- `thread_pool::wait_with_status_lock` (src/src/thread_pool.cpp
lines 147-166): TERMINATED returns immediately; otherwise block until the
queue is empty (the draining embedded as `drain`). No status store at
all. -/
def wait_with_status_lock (s : PoolState) (drain : PoolState → PoolState) :
    PoolState :=
  match s.status with
  | .TERMINATED => s
  | _ => drain s

/-- `thread_pool::add_thread` (src/src/thread_pool.cpp lines 256-276):
throws in TERMINATED/TERMINATING/PAUSED before touching anything; in
RUNNING/SHUTDOWN appends count_to_add new workers, each constructed
RUNNING. -/
def add_thread (s : PoolState) (count_to_add : Nat) :
    PoolState × Except AdminError Unit :=
  match s.status with
  | .TERMINATED => (s, .error .invalid_state)
  | .TERMINATING => (s, .error .invalid_state)
  | .PAUSED => (s, .error .invalid_state)
  | _ =>
      ({ s with worker_list :=
           s.worker_list ++ List.replicate count_to_add .RUNNING },
       .ok ())

/-- `thread_pool::remove_thread` (src/src/thread_pool.cpp lines 285-310):
throws in TERMINATED/TERMINATING/PAUSED; in RUNNING/SHUTDOWN clamps the
count to the worker-list size, terminates the last that-many workers
(most recently added first), notifies all queue waiters, and erases the
terminated suffix.  The returned list is the removed workers with
worker_terminate applied, as they stood when erased. -/
def remove_thread (s : PoolState) (count_to_remove : Nat) :
    PoolState × Except AdminError (Wake × List WorkerStatus) :=
  match s.status with
  | .TERMINATED => (s, .error .invalid_state)
  | .TERMINATING => (s, .error .invalid_state)
  | .PAUSED => (s, .error .invalid_state)
  | _ =>
      let n := s.worker_list.length
      let k := min count_to_remove n
      ({ s with worker_list := s.worker_list.take (n - k) },
       .ok (.all, (s.worker_list.drop (n - k)).map worker_terminate))

/-- `thread_pool::set_max_task_count` (src/include/thread_pool.hpp
lines 192-195): stores the new bound unconditionally — there is no status
check of any kind. -/
def set_max_task_count (s : PoolState) (count_to_set : Nat) : PoolState :=
  { s with max_task_count := count_to_set }

/-- `thread_pool::submit` (src/include/thread_pool.hpp lines 223-255):
if the status is not running, throw the status-specific error before any
mutation (status 0 → terminated, status 2 → paused, otherwise a generic
not-running error); else if the queue is bounded and at or over the
bound, throw queue-full; else wrap the callable in a packaged task bound
to a fresh future, push the wrapper at the queue tail, and notify_one on
the task-queue condition variable. -/
def submit (s : PoolState) (t : PoolTask) : PoolState × Except SubmitError Wake :=
  match s.status with
  | .TERMINATED => (s, .error .terminated)
  | .PAUSED => (s, .error .paused)
  | .SHUTDOWN => (s, .error .not_running)
  | .TERMINATING => (s, .error .not_running)
  | .RUNNING =>
      if 0 < s.max_task_count ∧ s.max_task_count ≤ s.task_queue.length then
        (s, .error .queue_full)
      else
        ({ s with task_queue := s.task_queue ++ [t] }, .ok .one)

/-- The lambda enqueued by submit (src/include/thread_pool.hpp line 251)
runs the `std::packaged_task`, whose call operator invokes the user
callable and stores its return value — or any exception it raises — into
the shared state read by the submitter's future; per the semantics of
std::packaged_task, no user exception escapes the call.  Returns the
updated channel store and whether an exception escaped to the caller of
the wrapper (always false). -/
def run_wrapped_task (t : PoolTask) (chans : Nat → ChanState) :
    (Nat → ChanState) × Bool :=
  (fun i =>
      if i = t.cid then
        match t.outcome with
        | .ok v => ChanState.value v
        | .error e => ChanState.failed e
      else chans i,
   false)

/-- One pass of the dequeue-and-run section of the converged worker loop
(src/src/worker_thread.cpp lines 130-147): pop the front task, release
the queue lock, run the wrapper; the catch branch prints the exception
and continues the loop, so the second component — did the worker thread
return out of its loop — is false on every path. -/
def worker_execute_front (s : PoolState) : PoolState × Bool :=
  match s.task_queue with
  | [] => (s, false)
  | t :: rest =>
      ({ s with task_queue := rest
                channels := (run_wrapped_task t s.channels).1 },
       false)

/-- A task can begin executing only as a step of one of the pool's
worker threads; a pool with no workers has no such step. -/
def worker_step (s : PoolState) (i : Nat) : Option (PoolState × Bool) :=
  if i < s.worker_list.length then some (worker_execute_front s) else none

/-- The destructor `thread_pool::~thread_pool` (src/src/thread_pool.cpp
lines 37-40): calls terminate(), after which the members are destroyed —
destroying the task queue destroys each queued wrapper and with it its
`std::packaged_task`; a packaged task destroyed with its shared state
still unsatisfied stores the broken-promise error into it. -/
def destroy (s : PoolState) : PoolState :=
  let s1 := terminate_with_status_lock s
  { s1 with
      task_queue := []
      channels := fun i =>
        if (s1.task_queue.any fun t => t.cid = i) ∧ s1.channels i = .pending
        then ChanState.broken
        else s1.channels i }

/-- Sequence of values the pool status word takes during pause
(src/src/thread_pool.cpp lines 49-69): one store, RUNNING to PAUSED;
every other status returns without a store. -/
def pause_trace (st : PoolStatus) : List PoolStatus :=
  match st with
  | .RUNNING => [.RUNNING, .PAUSED]
  | _ => [st]

/-- Status-word trace of resume (src/src/thread_pool.cpp lines 81-101):
one store, PAUSED to RUNNING; every other status leaves the word alone
(SHUTDOWN resumes the workers but performs no status store). -/
def resume_trace (st : PoolStatus) : List PoolStatus :=
  match st with
  | .PAUSED => [.PAUSED, .RUNNING]
  | _ => [st]

/-- Status-word trace of terminate and shutdown_now
(src/src/thread_pool.cpp lines 184-207, 215-224): TERMINATED returns at
once; TERMINATING proceeds straight to the final TERMINATED store;
RUNNING/PAUSED/SHUTDOWN first store TERMINATING, then TERMINATED. -/
def terminate_trace (st : PoolStatus) : List PoolStatus :=
  match st with
  | .TERMINATED => [.TERMINATED]
  | .TERMINATING => [.TERMINATING, .TERMINATED]
  | _ => [st, .TERMINATING, .TERMINATED]

/-- Status-word trace of shutdown (src/src/thread_pool.cpp
lines 112-134): TERMINATED/TERMINATING/SHUTDOWN return at once; PAUSED
resumes (storing RUNNING) and falls through; RUNNING stores SHUTDOWN,
drains, then runs the terminate stores. -/
def shutdown_trace (st : PoolStatus) : List PoolStatus :=
  match st with
  | .TERMINATED => [.TERMINATED]
  | .TERMINATING => [.TERMINATING]
  | .SHUTDOWN => [.SHUTDOWN]
  | .RUNNING => [.RUNNING, .SHUTDOWN, .TERMINATING, .TERMINATED]
  | .PAUSED => [.PAUSED, .RUNNING, .SHUTDOWN, .TERMINATING, .TERMINATED]

/-- Status-word trace of the operations that never store the pool status:
wait, add_thread, remove_thread, set_max_task_count, submit,
get_thread_count, get_task_count. -/
def no_store_trace (st : PoolStatus) : List PoolStatus :=
  [st]

/-- One adjacent status transition respects the termination ordering:
TERMINATED is absorbing, TERMINATING leads only to TERMINATED and is
entered only from RUNNING/PAUSED/SHUTDOWN, and SHUTDOWN never returns to
RUNNING or PAUSED. -/
def step_okb (x y : PoolStatus) : Bool :=
  (!(x == PoolStatus.TERMINATED) || (y == PoolStatus.TERMINATED))
  && (!(x == PoolStatus.TERMINATING) || (y == PoolStatus.TERMINATED))
  && (!(y == PoolStatus.TERMINATING)
      || (x == PoolStatus.RUNNING || x == PoolStatus.PAUSED
          || x == PoolStatus.SHUTDOWN))
  && (!(x == PoolStatus.SHUTDOWN)
      || (!(y == PoolStatus.RUNNING) && !(y == PoolStatus.PAUSED)))

/-- Every adjacent pair of a status trace satisfies step_okb. -/
def trace_okb : List PoolStatus → Bool
  | x :: y :: rest => step_okb x y && trace_okb (y :: rest)
  | _ => true

/-- The draining performed by the workers while shutdown or wait blocks
on the queue-empty condition variable, in its simplest form: the queue
has been consumed, everything else untouched. -/
def drain0 (u : PoolState) : PoolState :=
  { u with task_queue := [] }

/-- A sample succeeding task bound to channel 0. -/
def t0 : PoolTask :=
  ⟨0, Except.ok 7⟩

/-- A running pool holding one not-yet-started task (channel 0
unsatisfied), no workers attached. -/
def c1_pool : PoolState :=
  { mk_pool 0 0 with task_queue := [t0] }

/-- A running pool whose single queued task raises failure 3. -/
def fail_pool : PoolState :=
  { mk_pool 1 0 with task_queue := [⟨0, Except.error 3⟩] }

/-- An already terminated pool. -/
def terminated_pool : PoolState :=
  { mk_pool 0 0 with status := .TERMINATED }

/-- A pool in the SHUTDOWN (draining) state. -/
def shutdown_pool : PoolState :=
  { mk_pool 0 0 with status := .SHUTDOWN }

/-- A PAUSED pool holding three workers. -/
def paused_pool3 : PoolState :=
  { mk_pool 3 0 with status := .PAUSED }

theorem terminate_status_eq (s : PoolState) :
    (terminate_with_status_lock s).status = PoolStatus.TERMINATED := by
  obtain ⟨st, mx, q, w, ch⟩ := s
  cases st <;> rfl

theorem terminate_task_queue_eq (s : PoolState) :
    (terminate_with_status_lock s).task_queue = s.task_queue := by
  obtain ⟨st, mx, q, w, ch⟩ := s
  cases st <;> rfl

theorem terminate_channels_eq (s : PoolState) :
    (terminate_with_status_lock s).channels = s.channels := by
  obtain ⟨st, mx, q, w, ch⟩ := s
  cases st <;> rfl

/-- C1, counterexample: on a running pool holding one not-yet-started
task, shutdown_now terminates the pool but leaves the discarded task's
result channel unsatisfied — a caller reading the future at this point
blocks, instead of receiving a terminated-pool failure as the claim
states. -/
theorem shutdown_now_leaves_queued_channel_pending :
    c1_pool.task_queue = [t0]
    ∧ c1_pool.channels 0 = ChanState.pending
    ∧ (shutdown_now_with_status_lock c1_pool).status = PoolStatus.TERMINATED
    ∧ (shutdown_now_with_status_lock c1_pool).channels 0 = ChanState.pending
    ∧ future_get ((shutdown_now_with_status_lock c1_pool).channels 0)
        = FutureOutcome.blocks :=
  ⟨rfl, rfl, rfl, rfl, rfl⟩

/-- C1, amended: terminate/shutdown_now discard the queued tasks' chance
to run but do not resolve their result channels — each such channel stays
unsatisfied (reading it blocks) until the pool itself is destroyed, at
which point destroying the queued packaged tasks stores a broken-promise
failure (not a terminated-pool failure) into every still-pending
channel. -/
theorem discarded_channels_resolve_only_at_destruction
    (s : PoolState) (t : PoolTask) (ht : t ∈ s.task_queue)
    (hc : s.channels t.cid = ChanState.pending) :
    (shutdown_now_with_status_lock s).channels t.cid = ChanState.pending
    ∧ future_get ((shutdown_now_with_status_lock s).channels t.cid)
        = FutureOutcome.blocks
    ∧ (destroy s).channels t.cid = ChanState.broken
    ∧ future_get ((destroy s).channels t.cid)
        = FutureOutcome.broken_promise_error := by
  have hch : (terminate_with_status_lock s).channels = s.channels :=
    terminate_channels_eq s
  have hq : (terminate_with_status_lock s).task_queue = s.task_queue :=
    terminate_task_queue_eq s
  have h1 : (shutdown_now_with_status_lock s).channels t.cid
      = ChanState.pending := by
    rw [shutdown_now_with_status_lock, hch]; exact hc
  have hany : ((terminate_with_status_lock s).task_queue.any
      fun u => u.cid = t.cid) = true := by
    rw [hq]
    simp only [List.any_eq_true]
    exact ⟨t, ht, by simp⟩
  have h2 : (destroy s).channels t.cid = ChanState.broken := by
    show (if ((terminate_with_status_lock s).task_queue.any
            fun u => u.cid = t.cid)
          ∧ (terminate_with_status_lock s).channels t.cid = ChanState.pending
        then ChanState.broken
        else (terminate_with_status_lock s).channels t.cid) = ChanState.broken
    rw [if_pos ⟨hany, by rw [hch]; exact hc⟩]
  exact ⟨h1, by rw [h1]; rfl, h2, by rw [h2]; rfl⟩

theorem discarded_channels_resolve_only_at_destruction_witness :
    t0 ∈ c1_pool.task_queue
    ∧ c1_pool.channels t0.cid = ChanState.pending
    ∧ (shutdown_now_with_status_lock c1_pool).channels t0.cid
        = ChanState.pending
    ∧ (destroy c1_pool).channels t0.cid = ChanState.broken := by
  have hm : t0 ∈ c1_pool.task_queue := List.mem_singleton.mpr rfl
  have h := discarded_channels_resolve_only_at_destruction c1_pool t0 hm rfl
  exact ⟨hm, rfl, h.1, h.2.2.1⟩

/-- C3: when the task a worker dequeues raises a failure, the failure is
delivered into that task's own result channel, the worker's loop-exit
flag stays false, and the rest of the queue is left in place for the
worker's next iterations — the converged worker loop
(src/src/worker_thread.cpp lines 130-147) continues instead of
terminating. -/
theorem task_failure_does_not_kill_worker
    (s : PoolState) (t : PoolTask) (rest : List PoolTask) (e : Nat)
    (hq : s.task_queue = t :: rest) (he : t.outcome = Except.error e) :
    (worker_execute_front s).1.channels t.cid = ChanState.failed e
    ∧ (worker_execute_front s).2 = false
    ∧ (worker_execute_front s).1.task_queue = rest := by
  simp [worker_execute_front, hq, run_wrapped_task, he]

theorem task_failure_does_not_kill_worker_witness :
    (worker_execute_front fail_pool).1.channels 0 = ChanState.failed 3
    ∧ (worker_execute_front fail_pool).2 = false
    ∧ (worker_execute_front fail_pool).1.task_queue = [] :=
  task_failure_does_not_kill_worker fail_pool ⟨0, Except.error 3⟩ [] 3 rfl rfl

/-- C10: the packaged-task wrapper enqueued by submit captures any
failure raised by the user callable at the execution boundary: running
the wrapper never lets an exception escape to the worker's surrounding
catch branch, and the submitter's future observes exactly the stored
value or the stored user exception. -/
theorem packaged_task_captures_user_exception
    (t : PoolTask) (chans : Nat → ChanState) :
    (run_wrapped_task t chans).2 = false
    ∧ (∀ e, t.outcome = Except.error e →
        future_get ((run_wrapped_task t chans).1 t.cid)
          = FutureOutcome.user_error e)
    ∧ (∀ v, t.outcome = Except.ok v →
        future_get ((run_wrapped_task t chans).1 t.cid)
          = FutureOutcome.value v) := by
  refine ⟨rfl, ?_, ?_⟩ <;> intro x hx <;>
    simp [run_wrapped_task, hx, future_get]

theorem packaged_task_captures_user_exception_witness :
    (run_wrapped_task ⟨0, Except.error 3⟩ (fun _ => ChanState.pending)).2
        = false
    ∧ future_get
        ((run_wrapped_task ⟨0, Except.error 3⟩
            (fun _ => ChanState.pending)).1 0)
        = FutureOutcome.user_error 3 :=
  ⟨(packaged_task_captures_user_exception ⟨0, Except.error 3⟩
      (fun _ => ChanState.pending)).1,
   (packaged_task_captures_user_exception ⟨0, Except.error 3⟩
      (fun _ => ChanState.pending)).2.1 3 rfl⟩

/-- C4: submit succeeds precisely when the pool is RUNNING and the queue
is unbounded or strictly below its bound; a rejection throws the
status-specific error (terminated after terminate, paused while paused,
queue-full when bounded and full) and leaves the whole pool state — in
particular queue and status — unchanged; a success appends exactly one
task at the queue tail and performs one notify_one wake, changing
nothing else. -/
theorem submit_accepts_iff_running_and_not_full
    (s : PoolState) (t : PoolTask) :
    ((submit s t).2 = Except.ok Wake.one ↔
       s.status = PoolStatus.RUNNING ∧
         (s.max_task_count = 0 ∨ get_task_count s < s.max_task_count))
    ∧ (∀ e, (submit s t).2 = Except.error e → (submit s t).1 = s)
    ∧ (s.status = PoolStatus.TERMINATED →
        (submit s t).2 = Except.error SubmitError.terminated)
    ∧ (s.status = PoolStatus.PAUSED →
        (submit s t).2 = Except.error SubmitError.paused)
    ∧ (s.status = PoolStatus.RUNNING → 0 < s.max_task_count →
        s.max_task_count ≤ get_task_count s →
        (submit s t).2 = Except.error SubmitError.queue_full)
    ∧ ((submit s t).2 = Except.ok Wake.one →
        (submit s t).1.task_queue = s.task_queue ++ [t]
        ∧ (submit s t).1.status = s.status
        ∧ (submit s t).1.worker_list = s.worker_list
        ∧ (submit s t).1.max_task_count = s.max_task_count
        ∧ (submit s t).1.channels = s.channels) := by
  obtain ⟨st, mx, q, w, ch⟩ := s
  cases st
  case RUNNING =>
    by_cases hfull : 0 < mx ∧ mx ≤ q.length
    · simp only [submit, get_task_count, if_pos hfull]
      simp
      omega
    · simp only [submit, get_task_count, if_neg hfull]
      simp
      omega
  all_goals simp [submit, get_task_count]

theorem submit_accepts_iff_running_and_not_full_witness :
    (submit terminated_pool t0).2 = Except.error SubmitError.terminated
    ∧ (submit terminated_pool t0).1 = terminated_pool
    ∧ (submit (mk_pool 0 0) t0).2 = Except.ok Wake.one :=
  ⟨(submit_accepts_iff_running_and_not_full terminated_pool t0).2.2.1 rfl,
   (submit_accepts_iff_running_and_not_full terminated_pool t0).2.1
      SubmitError.terminated
      ((submit_accepts_iff_running_and_not_full terminated_pool t0).2.2.1 rfl),
   (submit_accepts_iff_running_and_not_full (mk_pool 0 0) t0).1.mpr
      ⟨rfl, Or.inl rfl⟩⟩

/-- C7: add_thread throws without creating a worker or changing any
state in TERMINATED/TERMINATING/PAUSED; in RUNNING or SHUTDOWN it
appends exactly n freshly constructed (RUNNING) workers to the worker
collection and changes nothing else. -/
theorem add_thread_status_gate (s : PoolState) (n : Nat) :
    ((s.status = PoolStatus.TERMINATED ∨ s.status = PoolStatus.TERMINATING
        ∨ s.status = PoolStatus.PAUSED) →
      (add_thread s n).2 = Except.error AdminError.invalid_state
      ∧ (add_thread s n).1 = s)
    ∧ ((s.status = PoolStatus.RUNNING ∨ s.status = PoolStatus.SHUTDOWN) →
      (add_thread s n).2 = Except.ok ()
      ∧ (add_thread s n).1.worker_list
          = s.worker_list ++ List.replicate n WorkerStatus.RUNNING
      ∧ get_thread_count (add_thread s n).1 = get_thread_count s + n
      ∧ (add_thread s n).1.status = s.status
      ∧ (add_thread s n).1.task_queue = s.task_queue
      ∧ (add_thread s n).1.max_task_count = s.max_task_count
      ∧ (add_thread s n).1.channels = s.channels) := by
  obtain ⟨st, mx, q, w, ch⟩ := s
  cases st <;> simp [add_thread, get_thread_count]

theorem add_thread_status_gate_witness :
    (add_thread terminated_pool 2).2 = Except.error AdminError.invalid_state
    ∧ (add_thread (mk_pool 1 0) 2).1.worker_list
        = List.replicate 1 WorkerStatus.RUNNING
            ++ List.replicate 2 WorkerStatus.RUNNING :=
  ⟨((add_thread_status_gate terminated_pool 2).1 (Or.inl rfl)).1,
   ((add_thread_status_gate (mk_pool 1 0) 2).2 (Or.inl rfl)).2.1⟩

/-- C6, counterexample: remove_thread is status-gated — on a PAUSED pool
with three workers, remove_thread(2) throws and removes nothing, so
get_thread_count stays 3 instead of the claimed max(0, 3 - 2) = 1; the
claim as stated, quantified over every n with no state restriction, is
false. -/
theorem remove_thread_rejected_on_paused_pool :
    paused_pool3.status = PoolStatus.PAUSED
    ∧ get_thread_count paused_pool3 = 3
    ∧ (remove_thread paused_pool3 2).2
        = Except.error AdminError.invalid_state
    ∧ (remove_thread paused_pool3 2).1 = paused_pool3
    ∧ get_thread_count (remove_thread paused_pool3 2).1 = 3
    ∧ get_thread_count (remove_thread paused_pool3 2).1
        ≠ get_thread_count paused_pool3 - 2 :=
  ⟨rfl, rfl, rfl, rfl, rfl, by decide⟩

/-- C6, amended: remove_thread(n) throws and removes nothing when the
pool is TERMINATED, TERMINATING or PAUSED; in RUNNING or SHUTDOWN it
clamps n to the current worker count, terminates and erases exactly that
many workers taken from the tail of the worker collection (most recently
added first), wakes all queue waiters (notify_all), and leaves the
survivors — the original prefix — so that get_thread_count afterwards is
the truncated difference previous - n; get_thread_count always equals
the worker-collection size. -/
theorem remove_thread_takes_most_recent_first (s : PoolState) (n : Nat) :
    ((s.status = PoolStatus.TERMINATED ∨ s.status = PoolStatus.TERMINATING
        ∨ s.status = PoolStatus.PAUSED) →
      (remove_thread s n).2 = Except.error AdminError.invalid_state
      ∧ (remove_thread s n).1 = s)
    ∧ ((s.status = PoolStatus.RUNNING ∨ s.status = PoolStatus.SHUTDOWN) →
      (remove_thread s n).2
          = Except.ok (Wake.all,
              (s.worker_list.drop
                (s.worker_list.length - min n s.worker_list.length)).map
                worker_terminate)
      ∧ (remove_thread s n).1.worker_list
          = s.worker_list.take
              (s.worker_list.length - min n s.worker_list.length)
      ∧ ((s.worker_list.drop
            (s.worker_list.length - min n s.worker_list.length)).map
            worker_terminate).length = min n s.worker_list.length
      ∧ (∀ v ∈ (s.worker_list.drop
            (s.worker_list.length - min n s.worker_list.length)).map
            worker_terminate,
          v = WorkerStatus.TERMINATING ∨ v = WorkerStatus.TERMINATED)
      ∧ get_thread_count (remove_thread s n).1 = get_thread_count s - n
      ∧ (remove_thread s n).1.status = s.status
      ∧ (remove_thread s n).1.task_queue = s.task_queue
      ∧ (remove_thread s n).1.channels = s.channels)
    ∧ (∀ u : PoolState, get_thread_count u = u.worker_list.length) := by
  obtain ⟨st, mx, q, w, ch⟩ := s
  have hmem : ∀ v ∈ (w.drop (w.length - min n w.length)).map worker_terminate,
      v = WorkerStatus.TERMINATING ∨ v = WorkerStatus.TERMINATED := by
    intro v hv
    rcases List.mem_map.mp hv with ⟨x, -, rfl⟩
    cases x <;> simp [worker_terminate]
  have hlen : ((w.drop (w.length - min n w.length)).map
      worker_terminate).length = min n w.length := by
    simp [List.length_map, List.length_drop]
    omega
  have hcnt : (w.take (w.length - min n w.length)).length = w.length - n := by
    simp [List.length_take]
    omega
  cases st
  case RUNNING =>
    refine ⟨fun h => ?_, fun _ => ?_, fun u => rfl⟩
    · rcases h with h | h | h <;> simp at h
    · simp_all [remove_thread, get_thread_count]
  case SHUTDOWN =>
    refine ⟨fun h => ?_, fun _ => ?_, fun u => rfl⟩
    · rcases h with h | h | h <;> simp at h
    · simp_all [remove_thread, get_thread_count]
  case PAUSED =>
    refine ⟨fun _ => ⟨rfl, rfl⟩, fun h => ?_, fun u => rfl⟩
    rcases h with h | h <;> simp at h
  case TERMINATED =>
    refine ⟨fun _ => ⟨rfl, rfl⟩, fun h => ?_, fun u => rfl⟩
    rcases h with h | h <;> simp at h
  case TERMINATING =>
    refine ⟨fun _ => ⟨rfl, rfl⟩, fun h => ?_, fun u => rfl⟩
    rcases h with h | h <;> simp at h

theorem remove_thread_takes_most_recent_first_witness :
    (remove_thread paused_pool3 1).2
        = Except.error AdminError.invalid_state
    ∧ (remove_thread (mk_pool 3 0) 2).2
        = Except.ok (Wake.all, [WorkerStatus.TERMINATING,
            WorkerStatus.TERMINATING])
    ∧ get_thread_count (remove_thread (mk_pool 3 0) 2).1 = 1 := by
  have hp := remove_thread_takes_most_recent_first paused_pool3 1
  have hr := remove_thread_takes_most_recent_first (mk_pool 3 0) 2
  exact ⟨(hp.1 (Or.inr (Or.inr rfl))).1, (hr.2.1 (Or.inl rfl)).1,
    (hr.2.1 (Or.inl rfl)).2.2.2.2.1⟩

/-- C8, counterexample: set_max_task_count performs no status check, so
on a TERMINATED pool it is neither rejected (its type offers no failure)
nor state-preserving: it changes max_task_count, refuting the claim that
every listed administrative mutation on a TERMINATED/TERMINATING pool is
rejected or leaves the pool unchanged. -/
theorem set_max_task_count_mutates_terminated_pool :
    terminated_pool.status = PoolStatus.TERMINATED
    ∧ terminated_pool.max_task_count = 0
    ∧ (set_max_task_count terminated_pool 5).max_task_count = 5
    ∧ set_max_task_count terminated_pool 5 ≠ terminated_pool :=
  ⟨rfl, rfl, rfl, fun h => by
    have h5 := congrArg PoolState.max_task_count h
    simp [set_max_task_count, terminated_pool, mk_pool] at h5⟩

/-- C8, amended: once the pool is TERMINATED or TERMINATING, pause,
resume and shutdown leave the pool unchanged and add_thread and
remove_thread are rejected without change, while the counters stay
available; set_max_task_count, however, is not status-gated: it succeeds
in every state and overwrites max_task_count (touching nothing else),
even on a TERMINATED or TERMINATING pool. -/
theorem terminal_states_reject_admin_mutation_except_set_max
    (s : PoolState) (n : Nat)
    (h : s.status = PoolStatus.TERMINATED
      ∨ s.status = PoolStatus.TERMINATING) :
    pause_with_status_lock s = s
    ∧ resume_with_status_lock s = s
    ∧ (∀ drain, shutdown_with_status_lock s drain = s)
    ∧ (add_thread s n).2 = Except.error AdminError.invalid_state
    ∧ (add_thread s n).1 = s
    ∧ (remove_thread s n).2 = Except.error AdminError.invalid_state
    ∧ (remove_thread s n).1 = s
    ∧ (set_max_task_count s n).max_task_count = n
    ∧ (set_max_task_count s n).status = s.status
    ∧ (set_max_task_count s n).task_queue = s.task_queue
    ∧ (set_max_task_count s n).worker_list = s.worker_list
    ∧ get_thread_count s = s.worker_list.length
    ∧ get_task_count s = s.task_queue.length := by
  obtain ⟨st, mx, q, w, ch⟩ := s
  rcases h with h | h <;>
    simp_all [pause_with_status_lock, resume_with_status_lock,
      shutdown_with_status_lock, add_thread, remove_thread,
      set_max_task_count, get_thread_count, get_task_count]

theorem terminal_states_reject_admin_mutation_except_set_max_witness :
    pause_with_status_lock terminated_pool = terminated_pool
    ∧ (add_thread terminated_pool 3).2
        = Except.error AdminError.invalid_state
    ∧ (set_max_task_count terminated_pool 3).max_task_count = 3 := by
  have h := terminal_states_reject_admin_mutation_except_set_max
    terminated_pool 3 (Or.inl rfl)
  exact ⟨h.1, h.2.2.2.1, h.2.2.2.2.2.2.2.1⟩

/-- C9: constructing the pool with zero initial threads succeeds for any
max_task_count m: the pool starts RUNNING with zero workers and an empty
queue; submit on it still succeeds (notify_one, one task at the tail),
and since the worker collection is empty no worker step exists to start
the task — it stays queued until add_thread supplies a worker, after
which a worker step dequeues and runs it. -/
theorem zero_worker_pool_constructs_and_queues (m : Nat) (t : PoolTask) :
    (mk_pool 0 m).status = PoolStatus.RUNNING
    ∧ get_thread_count (mk_pool 0 m) = 0
    ∧ get_task_count (mk_pool 0 m) = 0
    ∧ (submit (mk_pool 0 m) t).2 = Except.ok Wake.one
    ∧ (submit (mk_pool 0 m) t).1.task_queue = [t]
    ∧ (∀ i, worker_step (submit (mk_pool 0 m) t).1 i = none)
    ∧ worker_step (add_thread (submit (mk_pool 0 m) t).1 1).1 0
        = some (worker_execute_front
            (add_thread (submit (mk_pool 0 m) t).1 1).1)
    ∧ (worker_execute_front
        (add_thread (submit (mk_pool 0 m) t).1 1).1).1.task_queue = [] := by
  have hs : submit (mk_pool 0 m) t
      = ({ mk_pool 0 m with task_queue := [t] }, Except.ok Wake.one) := by
    simp only [submit, mk_pool]
    rw [if_neg (by simp only [List.length_nil]; omega)]
    simp
  refine ⟨rfl, rfl, rfl, ?_, ?_, ?_, ?_, ?_⟩
  · rw [hs]
  · rw [hs]
  · intro i
    rw [hs]
    simp [worker_step, mk_pool]
  · rw [hs]
    simp [worker_step, add_thread, mk_pool]
  · rw [hs]
    simp [add_thread, worker_execute_front, mk_pool]

/-- C5: shutdown on a RUNNING or PAUSED pool stores SHUTDOWN — from then
on submissions are rejected — blocks until the workers have drained the
queue (any drain that preserves the status word, which the held status
lock guarantees, and returns only with an empty queue), and then
terminates, so it returns with get_task_count zero and status
TERMINATED; called on a PAUSED pool it resumes all workers before
draining; called on a pool already SHUTDOWN, TERMINATING or TERMINATED
it returns with no further action. -/
theorem shutdown_drains_then_terminates
    (s : PoolState) (drain : PoolState → PoolState)
    (_hds : ∀ u, (drain u).status = u.status)
    (hdq : ∀ u, (drain u).task_queue = []) :
    ((s.status = PoolStatus.RUNNING ∨ s.status = PoolStatus.PAUSED) →
      (shutdown_with_status_lock s drain).status = PoolStatus.TERMINATED
      ∧ get_task_count (shutdown_with_status_lock s drain) = 0
      ∧ (shutdown_pre s).status = PoolStatus.SHUTDOWN
      ∧ (∀ t, (submit (shutdown_pre s) t).2
          = Except.error SubmitError.not_running))
    ∧ (s.status = PoolStatus.PAUSED →
      (shutdown_pre s).worker_list = s.worker_list.map worker_resume)
    ∧ ((s.status = PoolStatus.SHUTDOWN ∨ s.status = PoolStatus.TERMINATING
        ∨ s.status = PoolStatus.TERMINATED) →
      shutdown_with_status_lock s drain = s) := by
  obtain ⟨st, mx, q, w, ch⟩ := s
  cases st
  case RUNNING =>
    refine ⟨?_, ?_, ?_⟩
    · intro h
      refine ⟨terminate_status_eq _, ?_, rfl, fun t => rfl⟩
      show (terminate_with_status_lock (drain (shutdown_pre
          ⟨PoolStatus.RUNNING, mx, q, w, ch⟩))).task_queue.length = 0
      rw [terminate_task_queue_eq, hdq]
      rfl
    · intro h
      simp at h
    · intro h
      rcases h with h | h | h <;> simp at h
  case PAUSED =>
    refine ⟨?_, ?_, ?_⟩
    · intro h
      refine ⟨terminate_status_eq _, ?_, rfl, fun t => rfl⟩
      show (terminate_with_status_lock (drain (shutdown_pre
          ⟨PoolStatus.PAUSED, mx, q, w, ch⟩))).task_queue.length = 0
      rw [terminate_task_queue_eq, hdq]
      rfl
    · intro h
      rfl
    · intro h
      rcases h with h | h | h <;> simp at h
  case SHUTDOWN =>
    refine ⟨?_, fun h => by simp at h, fun h => rfl⟩
    intro h
    rcases h with h | h <;> simp at h
  case TERMINATING =>
    refine ⟨?_, fun h => by simp at h, fun h => rfl⟩
    intro h
    rcases h with h | h <;> simp at h
  case TERMINATED =>
    refine ⟨?_, fun h => by simp at h, fun h => rfl⟩
    intro h
    rcases h with h | h <;> simp at h

theorem shutdown_drains_then_terminates_witness :
    (∀ u, (drain0 u).status = u.status)
    ∧ (∀ u, (drain0 u).task_queue = [])
    ∧ c1_pool.status = PoolStatus.RUNNING
    ∧ (shutdown_with_status_lock c1_pool drain0).status
        = PoolStatus.TERMINATED
    ∧ get_task_count (shutdown_with_status_lock c1_pool drain0) = 0 := by
  have h := shutdown_drains_then_terminates c1_pool drain0
    (fun u => rfl) (fun u => rfl)
  exact ⟨fun u => rfl, fun u => rfl, rfl,
    (h.1 (Or.inl rfl)).1, (h.1 (Or.inl rfl)).2.1⟩

/-- C2: the pool status moves toward termination only.  Part one: the
sequence of status stores each administrative operation performs
satisfies, at every adjacent step, that TERMINATED is never left, that
TERMINATING steps only to TERMINATED and is entered only from
RUNNING/PAUSED/SHUTDOWN, and that SHUTDOWN never steps back to RUNNING
or PAUSED.  Part two: TERMINATED is absorbing — every operation returns
a TERMINATED pool unchanged (set_max_task_count changes only the bound,
never the status).  Part three: from SHUTDOWN no operation produces
RUNNING or PAUSED again — each either keeps SHUTDOWN or (terminate)
reaches TERMINATED. -/
theorem pool_status_moves_toward_termination :
    (∀ st : PoolStatus,
        trace_okb (pause_trace st) = true
        ∧ trace_okb (resume_trace st) = true
        ∧ trace_okb (terminate_trace st) = true
        ∧ trace_okb (shutdown_trace st) = true
        ∧ trace_okb (no_store_trace st) = true)
    ∧ (∀ (s : PoolState) (n : Nat) (t : PoolTask),
        s.status = PoolStatus.TERMINATED →
          pause_with_status_lock s = s
          ∧ resume_with_status_lock s = s
          ∧ terminate_with_status_lock s = s
          ∧ shutdown_now_with_status_lock s = s
          ∧ (add_thread s n).1 = s
          ∧ (remove_thread s n).1 = s
          ∧ (set_max_task_count s n).status = PoolStatus.TERMINATED
          ∧ (submit s t).1 = s
          ∧ (∀ drain, shutdown_with_status_lock s drain = s)
          ∧ (∀ drain, wait_with_status_lock s drain = s))
    ∧ (∀ (s : PoolState) (n : Nat) (t : PoolTask)
        (drain : PoolState → PoolState),
        (∀ u, (drain u).status = u.status) →
        s.status = PoolStatus.SHUTDOWN →
          (pause_with_status_lock s).status = PoolStatus.SHUTDOWN
          ∧ (resume_with_status_lock s).status = PoolStatus.SHUTDOWN
          ∧ (terminate_with_status_lock s).status = PoolStatus.TERMINATED
          ∧ (add_thread s n).1.status = PoolStatus.SHUTDOWN
          ∧ (remove_thread s n).1.status = PoolStatus.SHUTDOWN
          ∧ (set_max_task_count s n).status = PoolStatus.SHUTDOWN
          ∧ (submit s t).1.status = PoolStatus.SHUTDOWN
          ∧ (wait_with_status_lock s drain).status = PoolStatus.SHUTDOWN
          ∧ (shutdown_with_status_lock s drain).status
              = PoolStatus.SHUTDOWN) := by
  refine ⟨?_, ?_, ?_⟩
  · intro st
    cases st <;>
      exact ⟨by decide, by decide, by decide, by decide, by decide⟩
  · intro s n t h
    obtain ⟨st, mx, q, w, ch⟩ := s
    cases st
    case TERMINATED =>
      exact ⟨rfl, rfl, rfl, rfl, rfl, rfl, rfl, rfl,
        fun drain => rfl, fun drain => rfl⟩
    all_goals simp at h
  · intro s n t drain hds h
    obtain ⟨st, mx, q, w, ch⟩ := s
    cases st
    case SHUTDOWN =>
      exact ⟨rfl, rfl, rfl, rfl, rfl, rfl, rfl, hds _, rfl⟩
    all_goals simp at h

theorem pool_status_moves_toward_termination_witness :
    trace_okb (shutdown_trace PoolStatus.PAUSED) = true
    ∧ pause_with_status_lock terminated_pool = terminated_pool
    ∧ (terminate_with_status_lock shutdown_pool).status
        = PoolStatus.TERMINATED
    ∧ (pause_with_status_lock shutdown_pool).status
        = PoolStatus.SHUTDOWN := by
  have h := pool_status_moves_toward_termination
  have h2 := h.2.1 terminated_pool 0 t0 rfl
  have h3 := h.2.2 shutdown_pool 0 t0 drain0 (fun u => rfl) rfl
  exact ⟨(h.1 PoolStatus.PAUSED).2.2.2.1, h2.1, h3.2.2.1, h3.1⟩
